import Mathlib

/- Verification development for the python-server pose pipeline:
   merge engine (mvc/controller.py, server.py), smoothing strategies
   (smoothing/ema.py, smoothing/none.py), observable model (mvc/model.py),
   payload adapter (payload/adapter.py) and websocket broadcast
   (transport/websocket_view.py, server.py). -/

namespace Capstone

/-- A floating-point value as stored in the (33,4) numpy arrays: the NaN
sentinel used for unknown entries, an infinity, or a finite value modelled
exactly as a rational (binary rounding error is idealised away). -/
inductive F where
  | nan : F
  | inf : F
  | ninf : F
  | fin : ℚ → F
  deriving DecidableEq

/-- Largest finite float32 value, which numpy nan_to_num substitutes for
positive infinity by default. -/
def FMAX32 : ℚ := 2 ^ 128 - 2 ^ 104

/-- np.nan_to_num(v, nan=0.0) on a single value: NaN becomes 0, infinities
are clamped to the largest-magnitude finite float32, finite values pass
through unchanged. -/
def nanToNum (v : F) : ℚ :=
  match v with
  | .nan => 0
  | .inf => FMAX32
  | .ninf => -FMAX32
  | .fin q => q

/-- Multiplication of a float value by a finite scalar constant. -/
def scaleF (c : ℚ) (v : F) : F :=
  match v with
  | .nan => .nan
  | .inf => if 0 < c then .inf else if c < 0 then .ninf else .nan
  | .ninf => if 0 < c then .ninf else if c < 0 then .inf else .nan
  | .fin q => .fin (c * q)

/-- IEEE-style addition on float values: NaN absorbs, and adding opposite
infinities gives NaN. -/
def addF : F → F → F
  | .nan, _ => .nan
  | _, .nan => .nan
  | .inf, .ninf => .nan
  | .ninf, .inf => .nan
  | .inf, _ => .inf
  | _, .inf => .inf
  | .ninf, _ => .ninf
  | _, .ninf => .ninf
  | .fin a, .fin b => .fin (a + b)

/-- EmaSmoother.update of smoothing/ema.py on one array entry: prev is first
passed through np.nan_to_num(prev, nan=0.0), and then the blend
(1 - alpha) * prev + alpha * new is returned. -/
def emaSmoother_update (alpha : ℚ) (prev new : F) : F :=
  addF (.fin ((1 - alpha) * nanToNum prev)) (scaleF alpha new)

/-- ema_update of server.py on one array entry: where prev is NaN the new
value is adopted unchanged, elsewhere the blend
(1 - alpha) * prev + alpha * new is returned. -/
def ema_update (alpha : ℚ) (prev new : F) : F :=
  if prev = F.nan then new
  else addF (scaleF (1 - alpha) prev) (scaleF alpha new)

/-- NoSmoothing.update of smoothing/none.py: returns new unchanged. -/
def noSmoothing_update (_prev new : F) : F := new

/-- One landmark row of the (33,4) array: channels 0,1,2 are x,y,z and
channel 3 is the visibility. -/
abbrev Lm := Fin 4 → F

/-- A full 33-landmark array: one incoming frame, or the stored pose state. -/
abbrev Pose := Fin 33 → Lm

/-- Lift an elementwise smoother to whole landmark rows, exactly as numpy
broadcasting applies it to every element of the selected (n,4) slice. -/
def rowWise (f : F → F → F) (prev new : Lm) : Lm := fun j => f (prev j) (new j)

/-- np.isnan(arr).all() on a (33,4) array. -/
def isAllNaN (p : Pose) : Bool := decide (∀ k : Fin 33, ∀ j : Fin 4, p k j = F.nan)

/-- A landmark row is unknown when all four of its fields are NaN. -/
def lmUnknown (lm : Lm) : Bool := decide (∀ j : Fin 4, lm j = F.nan)

/-- The numpy comparison v >= t used on the visibility column: false when v
is NaN, as numpy comparisons with NaN are. -/
def fge (v : F) (t : ℚ) : Bool :=
  match v with
  | .nan => false
  | .inf => true
  | .ninf => false
  | .fin q => decide (t ≤ q)

/-- The per-landmark visibility gate cur[:, 3] >= vis_thresh. -/
def visGe (t : ℚ) (lm : Lm) : Bool := fge (lm 3) t

/-- Contents produced by the seeding branch of TrackerController._merge and
merge_frame: last[mask] = cur[mask] for mask = visibility at or above the
threshold, the other rows keeping their previous (all-NaN) contents. -/
def mergeContentSeed (t : ℚ) (last cur : Pose) : Pose :=
  fun k => if visGe t (cur k) then cur k else last k

/-- Contents produced by the ordinary branch: merged = last.copy() and then
merged[accept] = smoother.update(last[accept], cur[accept]); note the whole
4-wide rows, visibility included, are handed to the smoother. -/
def mergeContentBlend (sm : Lm → Lm → Lm) (t : ℚ) (last cur : Pose) : Pose :=
  fun k => if visGe t (cur k) then sm (last k) (cur k) else last k

/-- TrackerController._merge of mvc/controller.py at the level of array
contents: the stored pose state after merging frame cur into state last,
with the smoothing strategy sm applied rowwise to accepted rows. -/
def controllerMerge (sm : Lm → Lm → Lm) (t : ℚ) (last cur : Pose) : Pose :=
  if isAllNaN last then mergeContentSeed t last cur
  else mergeContentBlend sm t last cur

/-- merge_frame of server.py at the level of array contents: the same shape
as controllerMerge, with the smoother fixed by the USE_SMOOTHING flag to
ema_update or to plain adoption of the current row. -/
def merge_frame (useSmoothing : Bool) (alpha t : ℚ) (last cur : Pose) : Pose :=
  if isAllNaN last then mergeContentSeed t last cur
  else mergeContentBlend
    (fun p n => if useSmoothing then rowWise (ema_update alpha) p n else n) t last cur

/-- A heap of numpy arrays: address to contents, plus the next fresh
address used by allocations such as ndarray.copy(). -/
structure NpHeap where
  mem : ℕ → Pose
  next : ℕ

/-- The mutable state of TrackerController: the array heap together with the
address of the array currently bound to the field holding the last state. -/
structure EngineSt where
  heap : NpHeap
  lastAddr : ℕ

/-- TrackerController._merge with array identity made explicit. The seeding
branch assigns into the stored array in place and returns that same array;
the ordinary branch allocates a fresh array via last.copy(), assigns the
blended rows into it, rebinds the stored reference to it and returns it. -/
def mergeStep (sm : Lm → Lm → Lm) (t : ℚ) (e : EngineSt) (cur : Pose) : EngineSt × ℕ :=
  let last := e.heap.mem e.lastAddr
  if isAllNaN last then
    (⟨⟨Function.update e.heap.mem e.lastAddr (mergeContentSeed t last cur), e.heap.next⟩,
      e.lastAddr⟩, e.lastAddr)
  else
    (⟨⟨Function.update e.heap.mem e.heap.next (mergeContentBlend sm t last cur),
      e.heap.next + 1⟩, e.heap.next⟩, e.heap.next)

/-- The all-unknown initial state np.full((33, 4), np.nan). -/
def initPose : Pose := fun _ _ => F.nan

/-- The engine at construction: one allocated array, all NaN, bound as the
stored state. -/
def engineInit : EngineSt := ⟨⟨fun _ => initPose, 1⟩, 0⟩

/-- A concrete stored state: landmark 0 known at (1,1,1) with visibility
0.9, the other 32 landmarks unknown. -/
def poseOneKnown : Pose :=
  fun k j => if k = (0 : Fin 33) then (if j = (3 : Fin 4) then F.fin (9/10) else F.fin 1)
    else F.nan

/-- A concrete frame: landmark 0 at (2,2,2) with visibility 0.8, the other
landmarks all NaN. -/
def frameTwo : Pose :=
  fun k j => if k = (0 : Fin 33) then (if j = (3 : Fin 4) then F.fin (8/10) else F.fin 2)
    else F.nan

/-- A concrete frame whose every landmark has visibility 0, below any
positive threshold, and position (5,5,5). -/
def frameLow : Pose :=
  fun _ j => if j = (3 : Fin 4) then F.fin 0 else F.fin 5

/-- A concrete frame where only landmark 0 is visible: (7,7,7) with
visibility 1, every other landmark at (5,5,5) with visibility 0. -/
def frameK0 : Pose :=
  fun k j => if k = (0 : Fin 33) then (if j = (3 : Fin 4) then F.fin 1 else F.fin 7)
    else (if j = (3 : Fin 4) then F.fin 0 else F.fin 5)

/-- First merge call of the aliasing scenario, at visibility threshold 1:
seeding merge of a frame with no visible landmark into a fresh engine. -/
def c5Step1 : EngineSt × ℕ :=
  mergeStep (rowWise (emaSmoother_update (35/100))) 1 engineInit frameLow

/-- Second merge call of the aliasing scenario: the stored state is still
all NaN, so this call also takes the seeding branch and assigns in place. -/
def c5Step2 : EngineSt × ℕ :=
  mergeStep (rowWise (emaSmoother_update (35/100))) 1 c5Step1.1 frameK0

/-- One record of the pose list of the Unity JSON payload, holding the id
and the three serialized coordinates. -/
structure PoseRec where
  id : ℕ
  x : F
  y : F
  z : F
  deriving DecidableEq

/-- The payload object built by UnityPoseAdapter.to_text: the timestamp
string and the ordered list of 33 landmark records. -/
structure Payload where
  ts : String
  pose : List PoseRec
  deriving DecidableEq

/-- np.nan_to_num(v, nan=0.0) kept as a float value: the result is always a
finite number. -/
def nan_to_num0 (v : F) : F := F.fin (nanToNum v)

/-- Rounding to the nearest integer with ties going to the even neighbour,
as Python round resolves ties. -/
def roundHalfEven (q : ℚ) : ℤ :=
  if q - ⌊q⌋ < 1/2 then ⌊q⌋
  else if 1/2 < q - ⌊q⌋ then ⌊q⌋ + 1
  else if Even (⌊q⌋) then ⌊q⌋ else ⌊q⌋ + 1

/-- UnityPoseAdapter._num: optional rounding of a coordinate to
round_ndigits decimal digits; NaN and infinities pass through round
unchanged. -/
def adapter_num (rnd : Option ℕ) (v : F) : F :=
  match rnd with
  | none => v
  | some n =>
    match v with
    | .fin q => .fin ((roundHalfEven (q * 10 ^ n) : ℚ) / 10 ^ n)
    | w => w

/-- UnityPoseAdapter.to_text of payload/adapter.py: when nan_to_zero is set
the array is first passed through np.nan_to_num, then the 33 records with
id, x, y, z are built applying the optional rounding, under a timestamp
datetime.utcnow().isoformat() + Z. The isoformat string ts is supplied as
an argument since the code reads the wall clock for it. -/
def to_text (nanToZero : Bool) (rnd : Option ℕ) (ts : String) (arr : Pose) : Payload :=
  let safe : Pose := if nanToZero then (fun k j => nan_to_num0 (arr k j)) else arr
  { ts := ts ++ "Z",
    pose := (List.finRange 33).map fun i =>
      { id := (i : ℕ)
        x := adapter_num rnd (safe i 0)
        y := adapter_num rnd (safe i 1)
        z := adapter_num rnd (safe i 2) } }

/-- Whether a float value is finite, that is, neither NaN nor an infinity. -/
def isFin : F → Bool
  | .fin _ => true
  | _ => false

/-- The landmark record that to_text with nan_to_zero set builds for index
i. -/
def toTextRec (rnd : Option ℕ) (arr : Pose) (i : Fin 33) : PoseRec :=
  ⟨(i : ℕ), adapter_num rnd (nan_to_num0 (arr i 0)),
    adapter_num rnd (nan_to_num0 (arr i 1)), adapter_num rnd (nan_to_num0 (arr i 2))⟩

/-- Remote clients of the websocket server, identified by a number. -/
abbrev Client := ℕ

/-- WebSocketView.update of transport/websocket_view.py: convert the state
through the adapter and overwrite the single latest-payload slot under the
lock; the previous contents of the slot are discarded, never queued. -/
def wsViewUpdate (nanToZero : Bool) (rnd : Option ℕ) (_latest : Option Payload)
    (u : String × Pose) : Option Payload :=
  some (to_text nanToZero rnd u.1 u.2)

/-- The contents of the latest-payload slot after a sequence of
notifications, each carrying its wall-clock timestamp and merged state,
arriving between two broadcast ticks. -/
def wsLatestAfter (nanToZero : Bool) (rnd : Option ℕ) (latest0 : Option Payload)
    (updates : List (String × Pose)) : Option Payload :=
  updates.foldl (wsViewUpdate nanToZero rnd) latest0

/-- The sends of one iteration of WebSocketView._broadcast_loop: if the
snapshot of the slot is non-empty and there are clients, the same text goes
to every client of list(clients); otherwise the tick is a no-op. -/
def wsTickSends (latest : Option Payload) (clients : List Client) :
    List (Client × Payload) :=
  match latest with
  | none => []
  | some txt => if clients.isEmpty then [] else clients.map fun c => (c, txt)

/-- One full broadcast tick with per-client send outcomes, covering both
broadcast loops (transport/websocket_view.py and server.py): every send is
attempted through asyncio.gather with return_exceptions set, so failures
are captured and ignored; the first component lists the successful
deliveries, the second the client set after the tick, which the loop never
modifies. -/
def broadcastTick (latest : Option Payload) (clients : List Client)
    (fails : Client → Bool) : List (Client × Payload) × List Client :=
  match latest with
  | none => ([], clients)
  | some txt =>
    if clients.isEmpty then ([], clients)
    else ((clients.filter fun c => !fails c).map fun c => (c, txt), clients)

/-- Outcome of delivering one model update to one observer inside
PoseModel.notify: either the observer received the state, or it raised and
the failure was printed. -/
inductive NotifyEvent where
  | delivered (o : ℕ) (st : Pose)
  | failedReported (o : ℕ)
  deriving DecidableEq

/-- The try/except body of the loop of PoseModel.notify: run the update of
observer o, catching any exception and reporting it. -/
def tryUpdate (upd : ℕ → Pose → Except String Unit) (st : Pose) (o : ℕ) : NotifyEvent :=
  match upd o st with
  | .ok _ => .delivered o st
  | .error _ => .failedReported o

/-- PoseModel.notify of mvc/model.py: iterate over a snapshot
list(observers) taken at the start of the call, delivering the state to
each observer in attachment order; every update is guarded by try/except,
so notify always returns normally. -/
def notify (observers : List ℕ) (upd : ℕ → Pose → Except String Unit) (st : Pose) :
    List NotifyEvent :=
  match observers with
  | [] => []
  | o :: rest => tryUpdate upd st o :: notify rest upd st

/-- The observer an event belongs to. -/
def eventObserver : NotifyEvent → ℕ
  | .delivered o _ => o
  | .failedReported o => o

/-- A concrete observer table where observer 0 raises and every other
observer succeeds. -/
def updC8 : ℕ → Pose → Except String Unit :=
  fun o _ => if o = 0 then .error "boom" else .ok ()

/-- PoseModel.detach of mvc/model.py: Python list.remove, which removes the
first occurrence of the observer and raises ValueError when the observer is
absent, leaving the list unchanged in that case. -/
def pm_detach (l : List ℕ) (o : ℕ) : Except String (List ℕ) :=
  match l with
  | [] => .error "ValueError"
  | x :: xs => if x = o then .ok xs else (pm_detach xs o).map (fun ys => x :: ys)

/-- A concrete payload used by the broadcast counterexample. -/
def payload0 : Payload := to_text true none "2026-01-01T00:00:00.000000" initPose

/-- An engine whose stored array already has landmark 0 known. -/
def engineKnown : EngineSt := ⟨⟨fun _ => poseOneKnown, 1⟩, 0⟩

/-- C1: at an entry where prev is NaN, EmaSmoother.update of smoothing/ema.py
does not return new unchanged: np.nan_to_num turns the NaN prev into 0.0 and
the blend then yields alpha times new, here 0.35 instead of 1.  The sibling
implementation ema_update of server.py does adopt new unchanged at NaN
entries, as the claim states, so the two implementations of the EMA strategy
disagree at this input. -/
theorem C1_emaSmoother_nan_entry_eval :
    emaSmoother_update (35/100) F.nan (F.fin 1) = F.fin (35/100) ∧
    ema_update (35/100) F.nan (F.fin 1) = F.fin 1 ∧
    emaSmoother_update (35/100) F.nan (F.fin 1) ≠ ema_update (35/100) F.nan (F.fin 1) := by
  refine ⟨?_, ?_, ?_⟩
  · norm_num [emaSmoother_update, nanToNum, scaleF, addF]
  · norm_num [ema_update]
  · norm_num [emaSmoother_update, ema_update, nanToNum, scaleF, addF]

/-- C2: hold-last-good.  For any smoothing strategy, any landmark k whose
stored row is non-unknown before a merge, and any frame whose visibility at
k is below the threshold, both TrackerController._merge and merge_frame
leave the stored row at k exactly equal to its previous value. -/
theorem C2_hold_last_good (sm : Lm → Lm → Lm) (useSmoothing : Bool) (alpha t : ℚ)
    (last cur : Pose) (k : Fin 33)
    (hknown : lmUnknown (last k) = false) (hrej : visGe t (cur k) = false) :
    controllerMerge sm t last cur k = last k ∧
    merge_frame useSmoothing alpha t last cur k = last k := by
  have h1 : ¬ ∀ j : Fin 4, last k j = F.nan := by
    simpa [lmUnknown] using hknown
  have hall : isAllNaN last = false := by
    simp only [isAllNaN, decide_eq_false_iff_not]
    exact fun h => h1 fun j => h k j
  constructor <;> simp [controllerMerge, merge_frame, hall, mergeContentBlend, hrej]

/-- Witness for C2 at concrete inputs: landmark 0 is known in poseOneKnown,
frameLow rejects it, and both merge implementations keep the stored row. -/
theorem C2_hold_last_good_witness :
    lmUnknown (poseOneKnown 0) = false ∧ visGe (1/2) (frameLow 0) = false ∧
    (controllerMerge (rowWise (emaSmoother_update (35/100))) (1/2) poseOneKnown frameLow 0
        = poseOneKnown 0 ∧
      merge_frame true (35/100) (1/2) poseOneKnown frameLow 0 = poseOneKnown 0) :=
  ⟨by decide, by norm_num [visGe, frameLow, fge],
    C2_hold_last_good (rowWise (emaSmoother_update (35/100))) true (35/100) (1/2)
      poseOneKnown frameLow 0 (by decide) (by norm_num [visGe, frameLow, fge])⟩

/-- C4: seeding.  When the stored state is all-unknown, both merge
implementations copy every landmark whose visibility is at or above the
threshold verbatim from the incoming frame and leave every other landmark
unknown. -/
theorem C4_seeding (sm : Lm → Lm → Lm) (useSmoothing : Bool) (alpha t : ℚ)
    (last cur : Pose) (hall : isAllNaN last = true) :
    (∀ k : Fin 33, visGe t (cur k) = true →
        controllerMerge sm t last cur k = cur k ∧
        merge_frame useSmoothing alpha t last cur k = cur k) ∧
    (∀ k : Fin 33, visGe t (cur k) = false →
        lmUnknown (controllerMerge sm t last cur k) = true ∧
        lmUnknown (merge_frame useSmoothing alpha t last cur k) = true) := by
  have h : ∀ k j, last k j = F.nan := by simpa [isAllNaN] using hall
  constructor
  · intro k hk
    constructor <;> simp [controllerMerge, merge_frame, hall, mergeContentSeed, hk]
  · intro k hk
    constructor <;>
      simp [controllerMerge, merge_frame, hall, mergeContentSeed, hk, lmUnknown, h]

/-- Witness for C4: seeding frameK0, whose only landmark at or above the 0.5
threshold is landmark 0, into the all-unknown initial state populates
landmark 0 verbatim and leaves landmark 1 unknown. -/
theorem C4_seeding_witness :
    isAllNaN initPose = true ∧
    controllerMerge (rowWise (emaSmoother_update (35/100))) (1/2) initPose frameK0 0
      = frameK0 0 ∧
    lmUnknown (controllerMerge (rowWise (emaSmoother_update (35/100))) (1/2)
      initPose frameK0 1) = true :=
  ⟨by decide,
    ((C4_seeding (rowWise (emaSmoother_update (35/100))) true (35/100) (1/2)
        initPose frameK0 (by decide)).1 0 (by norm_num [visGe, frameK0, fge])).1,
    ((C4_seeding (rowWise (emaSmoother_update (35/100))) true (35/100) (1/2)
        initPose frameK0 (by decide)).2 1 (by norm_num [visGe, frameK0, fge])).1⟩

/-- C3 fails on the code: the whole 4-wide rows of the accepted landmarks,
visibility included, are handed to the smoother, so under EMA the stored
visibility after a merge is the blend of old and new visibilities.  Here
the stored visibility 0.9 and incoming visibility 0.8 blend to 0.865 with
alpha 0.35 instead of staying at the incoming 0.8. -/
theorem C3_visibility_blended_cex :
    (controllerMerge (rowWise (emaSmoother_update (35/100))) (1/2) poseOneKnown frameTwo 0) 3
        = F.fin (865/1000) ∧
    (controllerMerge (rowWise (emaSmoother_update (35/100))) (1/2) poseOneKnown frameTwo 0) 3
        ≠ frameTwo 0 3 := by
  have hna : isAllNaN poseOneKnown = false := by decide
  constructor
  · norm_num [controllerMerge, hna, mergeContentBlend, visGe, frameTwo, poseOneKnown, fge,
      rowWise, emaSmoother_update, nanToNum, scaleF, addF]
  · norm_num [controllerMerge, hna, mergeContentBlend, visGe, frameTwo, poseOneKnown, fge,
      rowWise, emaSmoother_update, nanToNum, scaleF, addF]

/-- C3 amended: the smoothing strategy is applied to all four channels of
each accepted landmark row, visibility included; for an accepted landmark
with known stored and incoming visibilities, the stored visibility after
the merge is the blend (1 - alpha) * prev + alpha * new under both the
EmaSmoother path and the server ema_update path, while the accept gate
itself reads only the incoming visibility. -/
theorem C3_amended_visibility_blended (alpha t pv nv : ℚ) (last cur : Pose) (k : Fin 33)
    (hall : isAllNaN last = false) (hacc : visGe t (cur k) = true)
    (hpv : last k 3 = F.fin pv) (hnv : cur k 3 = F.fin nv) :
    (controllerMerge (rowWise (emaSmoother_update alpha)) t last cur k) 3
        = F.fin ((1 - alpha) * pv + alpha * nv) ∧
    (merge_frame true alpha t last cur k) 3 = F.fin ((1 - alpha) * pv + alpha * nv) := by
  constructor
  · simp [controllerMerge, hall, mergeContentBlend, hacc, rowWise, emaSmoother_update,
      hpv, hnv, nanToNum, scaleF, addF]
  · simp [merge_frame, hall, mergeContentBlend, hacc, rowWise, ema_update, hpv, hnv,
      scaleF, addF]

/-- C5 fails on the code: the seeding branch of TrackerController._merge
returns the internal array itself rather than a copy.  Concretely, a first
merge whose frame has no visible landmark returns the internal address, and
a second merge, still seeding, assigns into that very array in place, so
the snapshot handed out by the first call changes value afterwards. -/
theorem C5_seed_alias_cex :
    c5Step1.2 = c5Step1.1.lastAddr ∧
    c5Step2.1.heap.mem c5Step1.2 ≠ c5Step1.1.heap.mem c5Step1.2 := by decide

/-- C5 amended: merge never returns a copy.  The seeding branch returns the
address of the internal array itself; the ordinary branch returns a freshly
allocated array, distinct from the storage the engine held before the call,
but that fresh array immediately becomes the new internal storage.  A merge
call writes to no other address, so arrays handed out by earlier ordinary
merges are not mutated by it. -/
theorem C5_amended_snapshot (sm : Lm → Lm → Lm) (t : ℚ) (e : EngineSt) (cur : Pose) :
    (isAllNaN (e.heap.mem e.lastAddr) = true → (mergeStep sm t e cur).2 = e.lastAddr) ∧
    (isAllNaN (e.heap.mem e.lastAddr) = false →
        (mergeStep sm t e cur).2 = e.heap.next ∧
        (mergeStep sm t e cur).2 = (mergeStep sm t e cur).1.lastAddr) ∧
    (∀ a : ℕ, a ≠ e.lastAddr → a ≠ e.heap.next →
        (mergeStep sm t e cur).1.heap.mem a = e.heap.mem a) := by
  refine ⟨fun h => by simp [mergeStep, h], fun h => by simp [mergeStep, h], ?_⟩
  intro a h1 h2
  by_cases h : isAllNaN (e.heap.mem e.lastAddr) = true
  · simp only [mergeStep]
    rw [if_pos h]
    exact Function.update_noteq h1 _ _
  · simp only [mergeStep]
    rw [if_neg h]
    exact Function.update_noteq h2 _ _

/-- Witness for the amended C5: the seeding call on a fresh engine returns
the internal address 0, the ordinary call on an engine with a known
landmark returns the fresh address 1, and an unrelated address 5 is left
untouched. -/
theorem C5_amended_snapshot_witness :
    (isAllNaN (engineInit.heap.mem engineInit.lastAddr) = true ∧
      (mergeStep (rowWise (emaSmoother_update (35/100))) (1/2) engineInit frameLow).2
        = engineInit.lastAddr) ∧
    (isAllNaN (engineKnown.heap.mem engineKnown.lastAddr) = false ∧
      (mergeStep (rowWise (emaSmoother_update (35/100))) (1/2) engineKnown frameTwo).2
        = engineKnown.heap.next) ∧
    ((5 : ℕ) ≠ engineInit.lastAddr ∧ (5 : ℕ) ≠ engineInit.heap.next ∧
      (mergeStep (rowWise (emaSmoother_update (35/100))) (1/2) engineInit frameLow).1.heap.mem 5
        = engineInit.heap.mem 5) :=
  ⟨⟨by decide,
      (C5_amended_snapshot (rowWise (emaSmoother_update (35/100))) (1/2) engineInit
        frameLow).1 (by decide)⟩,
    ⟨by decide,
      ((C5_amended_snapshot (rowWise (emaSmoother_update (35/100))) (1/2) engineKnown
        frameTwo).2.1 (by decide)).1⟩,
    ⟨by decide, by decide,
      (C5_amended_snapshot (rowWise (emaSmoother_update (35/100))) (1/2) engineInit
        frameLow).2.2 5 (by decide) (by decide)⟩⟩

/-- Witness for the amended C3 at concrete inputs: visibilities 0.9 and 0.8
blend to 0.865 under alpha 0.35 in both implementations. -/
theorem C3_amended_visibility_blended_witness :
    isAllNaN poseOneKnown = false ∧ visGe (1/2) (frameTwo 0) = true ∧
    ((controllerMerge (rowWise (emaSmoother_update (35/100))) (1/2) poseOneKnown frameTwo 0) 3
        = F.fin ((1 - 35/100) * (9/10) + (35/100) * (8/10)) ∧
      (merge_frame true (35/100) (1/2) poseOneKnown frameTwo 0) 3
        = F.fin ((1 - 35/100) * (9/10) + (35/100) * (8/10))) :=
  ⟨by decide, by norm_num [visGe, frameTwo, fge],
    C3_amended_visibility_blended (35/100) (1/2) (9/10) (8/10) poseOneKnown frameTwo 0
      (by decide) (by norm_num [visGe, frameTwo, fge])
      (by norm_num [poseOneKnown]) (by norm_num [frameTwo])⟩

/-- Helper: the latest-payload slot after a nonempty burst of notifications
holds exactly the adapter output of the last notification, whatever the
slot held before. -/
theorem wsLatestAfter_eq_last (nz : Bool) (rnd : Option ℕ) :
    ∀ (updates : List (String × Pose)) (latest0 : Option Payload) (hne : updates ≠ []),
      wsLatestAfter nz rnd latest0 updates
        = some (to_text nz rnd (updates.getLast hne).1 (updates.getLast hne).2) := by
  intro updates
  induction updates with
  | nil => intro l0 hne; exact absurd rfl hne
  | cons u rest ih =>
    intro l0 hne
    cases rest with
    | nil => simp [wsLatestAfter, wsViewUpdate, List.getLast]
    | cons v tail =>
      have h2 : v :: tail ≠ [] := by simp
      have hstep := ih (wsViewUpdate nz rnd l0 u) h2
      simpa [wsLatestAfter, List.getLast_cons] using hstep

/-- Helper: filtering the per-client send list of one tick down to one
client of a duplicate-free client set leaves exactly one send. -/
theorem filter_of_map_pair (txt : Payload) :
    ∀ (clients : List Client) (c : Client), clients.Nodup → c ∈ clients →
      ((clients.map fun d => (d, txt)).filter fun p => p.1 == c) = [(c, txt)] := by
  intro clients
  induction clients with
  | nil => intro c _ hc; cases hc
  | cons d rest ih =>
    intro c hnd hc
    rcases List.mem_cons.mp hc with h | h
    · subst h
      have hnotin : c ∉ rest := (List.nodup_cons.mp hnd).1
      have hnil : ((rest.map fun d => (d, txt)).filter fun p => p.1 == c) = [] := by
        apply List.filter_eq_nil_iff.mpr
        intro p hp
        obtain ⟨d2, hd2, rfl⟩ := List.mem_map.mp hp
        simp only [beq_iff_eq]
        exact fun he => hnotin (he ▸ hd2)
      simp [List.filter_cons_of_pos, hnil]
    · have hne : d ≠ c := by
        rintro rfl
        exact (List.nodup_cons.mp hnd).1 h
      have hrest := ih c (List.nodup_cons.mp hnd).2 h
      simpa [List.filter_cons_of_neg, hne] using hrest

/-- C6: most-recent-wins.  After any nonempty burst of notifications between
two ticks, the latest-payload slot holds the adapter output of the last
notification only, and the following tick sends exactly one message to each
connected client, whose content is that last payload. -/
theorem C6_most_recent_wins (nz : Bool) (rnd : Option ℕ) (latest0 : Option Payload)
    (updates : List (String × Pose)) (hne : updates ≠ [])
    (clients : List Client) (hnd : clients.Nodup) :
    wsLatestAfter nz rnd latest0 updates
      = some (to_text nz rnd (updates.getLast hne).1 (updates.getLast hne).2) ∧
    ∀ c ∈ clients,
      ((wsTickSends (wsLatestAfter nz rnd latest0 updates) clients).filter
          fun p => p.1 == c)
        = [(c, to_text nz rnd (updates.getLast hne).1 (updates.getLast hne).2)] := by
  have hlast := wsLatestAfter_eq_last nz rnd updates latest0 hne
  refine ⟨hlast, ?_⟩
  intro c hc
  have hcne : clients.isEmpty = false := by
    cases clients
    · cases hc
    · rfl
  rw [hlast]
  simp only [wsTickSends, hcne, Bool.false_eq_true, if_false]
  exact filter_of_map_pair _ clients c hnd hc

/-- Witness for C6: two notifications inside one period, then a tick with
clients 0 and 1; the slot holds the second payload and client 0 receives
exactly that one message. -/
theorem C6_most_recent_wins_witness :
    wsLatestAfter true none none [("t1", initPose), ("t2", frameK0)]
        = some (to_text true none "t2" frameK0) ∧
    ((wsTickSends (wsLatestAfter true none none [("t1", initPose), ("t2", frameK0)])
        [0, 1]).filter fun p => p.1 == 0)
      = [(0, to_text true none "t2" frameK0)] := by
  have h := C6_most_recent_wins true none none [("t1", initPose), ("t2", frameK0)]
    (by simp) [0, 1] (by decide)
  exact ⟨h.1, h.2 0 (by simp)⟩

/-- C7 fails on the code: neither broadcast loop removes a client whose send
failed; the gather call swallows the exception and the set is left exactly
as it was, so the failing client 0 is still present at the next tick.
Removal only ever happens in the connection handler, asynchronously. -/
theorem C7_failing_client_not_pruned_cex :
    (broadcastTick (some payload0) [0, 1] fun c => c == 0).2 = [0, 1] ∧
    (0 : Client) ∈ (broadcastTick (some payload0) [0, 1] fun c => c == 0).2 ∧
    ((1 : Client), payload0) ∈ (broadcastTick (some payload0) [0, 1] fun c => c == 0).1 := by
  refine ⟨rfl, by simp [broadcastTick], by simp [broadcastTick]⟩

/-- C7 amended: during a tick, a failure sending to one client is caught
and every non-failing client still receives the payload in that same tick,
but the broadcast loop does not remove the failing client: the client set
after the tick is exactly the set before it, and the failing client only
disappears when its own connection handler exits. -/
theorem C7_amended_client_isolation (txt : Payload) (clients : List Client)
    (fails : Client → Bool) :
    (∀ c ∈ clients, fails c = false →
        (c, txt) ∈ (broadcastTick (some txt) clients fails).1) ∧
    (broadcastTick (some txt) clients fails).2 = clients := by
  constructor
  · intro c hc hf
    have hcne : clients.isEmpty = false := by
      cases clients
      · cases hc
      · rfl
    simp only [broadcastTick, hcne, Bool.false_eq_true, if_false]
    exact List.mem_map.mpr ⟨c, List.mem_filter.mpr ⟨hc, by simp [hf]⟩, rfl⟩
  · simp only [broadcastTick]
    split <;> rfl

/-- Witness for the amended C7: with clients 0 and 1 where sends to 0 fail,
client 1 still receives the payload and the set after the tick is
unchanged. -/
theorem C7_amended_client_isolation_witness :
    ((1 : Client) ∈ [0, 1] ∧ ((fun c => c == 0) (1 : Client)) = false) ∧
    ((1 : Client), payload0) ∈ (broadcastTick (some payload0) [0, 1] fun c => c == 0).1 ∧
    (broadcastTick (some payload0) [0, 1] fun c => c == 0).2 = [0, 1] :=
  ⟨⟨by simp, rfl⟩,
    (C7_amended_client_isolation payload0 [0, 1] fun c => c == 0).1 1 (by simp) rfl,
    (C7_amended_client_isolation payload0 [0, 1] fun c => c == 0).2⟩

/-- Helper: the observer of the outcome of one guarded update is the
observer the update was sent to, whether it raised or not. -/
theorem eventObserver_tryUpdate (upd : ℕ → Pose → Except String Unit) (st : Pose) (o : ℕ) :
    eventObserver (tryUpdate upd st o) = o := by
  cases h : upd o st <;> simp [tryUpdate, h, eventObserver]

/-- C8: notify delivers to every observer attached at the start of the
call, in attachment order; an observer that raises is recorded as a
reported failure without stopping the pass, every non-raising observer
receives the state, and notify, being a total function into outcome lists,
never propagates an exception to its caller. -/
theorem C8_notify_isolation (observers : List ℕ) (upd : ℕ → Pose → Except String Unit)
    (st : Pose) :
    (notify observers upd st).map eventObserver = observers ∧
    (∀ o ∈ observers, upd o st = .ok () →
        NotifyEvent.delivered o st ∈ notify observers upd st) ∧
    (∀ o ∈ observers, ∀ e, upd o st = .error e →
        NotifyEvent.failedReported o ∈ notify observers upd st) := by
  induction observers with
  | nil => exact ⟨rfl, by simp, by simp⟩
  | cons o rest ih =>
    refine ⟨?_, ?_, ?_⟩
    · simp [notify, eventObserver_tryUpdate, ih.1]
    · intro o2 ho2 hok
      rcases List.mem_cons.mp ho2 with h | h
      · subst h
        have : tryUpdate upd st o2 = NotifyEvent.delivered o2 st := by
          simp [tryUpdate, hok]
        simp [notify, this]
      · exact List.mem_cons_of_mem _ (ih.2.1 o2 h hok)
    · intro o2 ho2 e herr
      rcases List.mem_cons.mp ho2 with h | h
      · subst h
        have : tryUpdate upd st o2 = NotifyEvent.failedReported o2 := by
          simp [tryUpdate, herr]
        simp [notify, this]
      · exact List.mem_cons_of_mem _ (ih.2.2 o2 h e herr)

/-- Witness for C8: with observers 0 and 1 where observer 0 raises, the
notification pass reports the failure of observer 0 and still delivers the
state to observer 1. -/
theorem C8_notify_isolation_witness :
    NotifyEvent.delivered 1 initPose ∈ notify [0, 1] updC8 initPose ∧
    NotifyEvent.failedReported 0 ∈ notify [0, 1] updC8 initPose :=
  ⟨(C8_notify_isolation [0, 1] updC8 initPose).2.1 1 (by simp) rfl,
    (C8_notify_isolation [0, 1] updC8 initPose).2.2 0 (by simp) "boom" rfl⟩

/-- Helper: a coordinate that went through nan_to_num and then the optional
rounding is always finite. -/
theorem isFin_adapter_num_nan_to_num (rnd : Option ℕ) (v : F) :
    isFin (adapter_num rnd (nan_to_num0 v)) = true := by
  cases rnd <;> simp [adapter_num, nan_to_num0, isFin]

/-- Helper: an unknown coordinate serializes as exactly 0, also under
rounding, since rounding fixes 0. -/
theorem adapter_num_nan_to_num_nan (rnd : Option ℕ) :
    adapter_num rnd (nan_to_num0 F.nan) = F.fin 0 := by
  cases rnd with
  | none => rfl
  | some n =>
    have h0 : roundHalfEven (0 : ℚ) = 0 := by
      norm_num [roundHalfEven]
    simp [adapter_num, nan_to_num0, nanToNum, h0]

/-- C9: with nan_to_zero enabled, every record of the adapter output has
finite x, y, z fields, and each landmark index has a record whose fields
are exactly 0 wherever the stored coordinate was unknown. -/
theorem C9_adapter_nan_policy (rnd : Option ℕ) (ts : String) (arr : Pose) :
    (∀ r ∈ (to_text true rnd ts arr).pose,
        isFin r.x = true ∧ isFin r.y = true ∧ isFin r.z = true) ∧
    (∀ i : Fin 33, ∃ r ∈ (to_text true rnd ts arr).pose, r.id = (i : ℕ) ∧
        (arr i 0 = F.nan → r.x = F.fin 0) ∧
        (arr i 1 = F.nan → r.y = F.fin 0) ∧
        (arr i 2 = F.nan → r.z = F.fin 0)) := by
  constructor
  · intro r hr
    obtain ⟨i, _, rfl⟩ := List.mem_map.mp hr
    exact ⟨isFin_adapter_num_nan_to_num rnd _, isFin_adapter_num_nan_to_num rnd _,
      isFin_adapter_num_nan_to_num rnd _⟩
  · intro i
    refine ⟨toTextRec rnd arr i,
      List.mem_map_of_mem (toTextRec rnd arr) (List.mem_finRange i), rfl, ?_, ?_, ?_⟩
    · intro h
      show adapter_num rnd (nan_to_num0 (arr i 0)) = F.fin 0
      rw [h]
      exact adapter_num_nan_to_num_nan rnd
    · intro h
      show adapter_num rnd (nan_to_num0 (arr i 1)) = F.fin 0
      rw [h]
      exact adapter_num_nan_to_num_nan rnd
    · intro h
      show adapter_num rnd (nan_to_num0 (arr i 2)) = F.fin 0
      rw [h]
      exact adapter_num_nan_to_num_nan rnd

/-- Witness for C9: serializing the all-unknown state with rounding to 4
digits, as app.py configures, yields a record for landmark 0 whose x field
is exactly 0. -/
theorem C9_adapter_nan_policy_witness :
    ∃ r ∈ (to_text true (some 4) "2026-01-01T00:00:00" initPose).pose,
      r.id = 0 ∧ r.x = F.fin 0 := by
  obtain ⟨r, hr, hid, hx, _, _⟩ :=
    (C9_adapter_nan_policy (some 4) "2026-01-01T00:00:00" initPose).2 0
  exact ⟨r, hr, hid, hx rfl⟩

/-- C10: detach on the observable model is Python list.remove: detaching an
observer that is not attached raises ValueError, and detaching an attached
observer removes exactly the first occurrence of it. -/
theorem C10_detach_semantics (l : List ℕ) (o : ℕ) :
    (o ∉ l → pm_detach l o = .error "ValueError") ∧
    (o ∈ l → pm_detach l o = .ok (l.erase o)) := by
  induction l with
  | nil => exact ⟨fun _ => rfl, by simp⟩
  | cons x xs ih =>
    constructor
    · intro h
      have hx : ¬(x = o) := fun he => h (he ▸ List.mem_cons_self x xs)
      have ho : o ∉ xs := fun hm => h (List.mem_cons_of_mem x hm)
      simp [pm_detach, hx, ih.1 ho, Except.map]
    · intro h
      by_cases hx : x = o
      · subst hx
        simp [pm_detach]
      · have ho : o ∈ xs := by
          rcases List.mem_cons.mp h with h1 | h1
          · exact absurd h1.symm hx
          · exact h1
        have htail : ¬(x == o) := by simpa using hx
        simp [pm_detach, hx, ih.2 ho, List.erase_cons_tail htail, Except.map]

/-- Witness for C10: detaching 2 from an observer list not containing it
raises, and detaching 0 from a list containing it twice removes only the
first occurrence. -/
theorem C10_detach_semantics_witness :
    ((2 : ℕ) ∉ [0, 1] ∧ pm_detach [0, 1] 2 = .error "ValueError") ∧
    ((0 : ℕ) ∈ [0, 1, 0] ∧ pm_detach [0, 1, 0] 0 = .ok ([0, 1, 0].erase 0) ∧
      [0, 1, 0].erase 0 = [1, 0]) :=
  ⟨⟨by decide, (C10_detach_semantics [0, 1] 2).1 (by decide)⟩,
    ⟨by decide, (C10_detach_semantics [0, 1, 0] 0).2 (by decide), by decide⟩⟩

end Capstone
